import Mathlib

/-!
Shallow embedding of the rust-zmq binding (src/zmq/lib.rs) for verification.

The binding wraps an external C library ("MQ-lib"); every C entry point is
modelled as an oracle parameter: the value the library would have returned is
passed in explicitly, and the embedded function computes exactly what the Rust
code computes from it.  Numeric error codes use the Linux x86-64 values of the
posix88 constants the source imports (EACCES = 13, EADDRINUSE = 98, ...), and
the host is taken to be 64-bit where pointer width matters (it is passed as an
explicit parameter there).  Process aborts (the Rust fail! macro) are modelled
by the FfiResult.abort constructor.
-/

namespace Zmq

/-- The Error enumeration of the binding (src/zmq/lib.rs lines 162-194).
Discriminants are the posix88 constants (Linux values) for the POSIX band,
and literal HAUSNUMERO-band codes for the MQ-lib band. -/
inductive Error where
  | EACCES
  | EADDRINUSE
  | EAGAIN
  | EBUSY
  | ECONNREFUSED
  | EFAULT
  | EHOSTUNREACH
  | EINPROGRESS
  | EINVAL
  | EMFILE
  | EMSGSIZE
  | ENAMETOOLONG
  | ENODEV
  | ENOENT
  | ENOMEM
  | ENOTCONN
  | ENOTSOCK
  | EPROTO
  | EPROTONOSUPPORT
  | ENOTSUP
  | ENOBUFS
  | ENETDOWN
  | EADDRNOTAVAIL
  | EFSM
  | ENOCOMPATPROTO
  | ETERM
  | EMTHREAD
deriving DecidableEq, Repr

/-- Error::to_raw: the numeric discriminant of the variant (the `*self as i32`
cast in the source, with the enum discriminants of lines 164-193). -/
def Error.to_raw : Error → Int
  | .EACCES          => 13
  | .EADDRINUSE      => 98
  | .EAGAIN          => 11
  | .EBUSY           => 16
  | .ECONNREFUSED    => 111
  | .EFAULT          => 14
  | .EHOSTUNREACH    => 113
  | .EINPROGRESS     => 115
  | .EINVAL          => 22
  | .EMFILE          => 24
  | .EMSGSIZE        => 90
  | .ENAMETOOLONG    => 36
  | .ENODEV          => 19
  | .ENOENT          => 2
  | .ENOMEM          => 12
  | .ENOTCONN        => 107
  | .ENOTSOCK        => 88
  | .EPROTO          => 71
  | .EPROTONOSUPPORT => 93
  | .ENOTSUP         => 156384713
  | .ENOBUFS         => 156384715
  | .ENETDOWN        => 156384716
  | .EADDRNOTAVAIL   => 156384718
  | .EFSM            => 156384763
  | .ENOCOMPATPROTO  => 156384764
  | .ETERM           => 156384765
  | .EMTHREAD        => 156384766

/-- Error::from_raw (src/zmq/lib.rs lines 201-245): a first-match chain over
the raw code, in the source's arm order.  The final fail! arm (unknown code
aborts the process) is modelled by `none`. -/
def Error.from_raw (raw : Int) : Option Error :=
  if raw = 13 then some .EACCES
  else if raw = 98 then some .EADDRINUSE
  else if raw = 11 then some .EAGAIN
  else if raw = 16 then some .EBUSY
  else if raw = 111 then some .ECONNREFUSED
  else if raw = 14 then some .EFAULT
  else if raw = 113 then some .EHOSTUNREACH
  else if raw = 115 then some .EINPROGRESS
  else if raw = 22 then some .EINVAL
  else if raw = 24 then some .EMFILE
  else if raw = 90 then some .EMSGSIZE
  else if raw = 36 then some .ENAMETOOLONG
  else if raw = 19 then some .ENODEV
  else if raw = 2 then some .ENOENT
  else if raw = 12 then some .ENOMEM
  else if raw = 107 then some .ENOTCONN
  else if raw = 88 then some .ENOTSOCK
  else if raw = 71 then some .EPROTO
  else if raw = 93 then some .EPROTONOSUPPORT
  else if raw = 156384713 then some .ENOTSUP
  else if raw = 156384714 then some .EPROTONOSUPPORT
  else if raw = 156384715 then some .ENOBUFS
  else if raw = 156384716 then some .ENETDOWN
  else if raw = 156384717 then some .EADDRINUSE
  else if raw = 156384718 then some .EADDRNOTAVAIL
  else if raw = 156384719 then some .ECONNREFUSED
  else if raw = 156384720 then some .EINPROGRESS
  else if raw = 156384721 then some .ENOTSOCK
  else if raw = 156384763 then some .EFSM
  else if raw = 156384764 then some .ENOCOMPATPROTO
  else if raw = 156384765 then some .ETERM
  else if raw = 156384766 then some .EMTHREAD
  else none

/-- The five HAUSNUMERO-band codes that from_raw aliases onto a POSIX-band
variant (lines 223, 226, 228, 229, 230 of the source). -/
def aliasedCodes : List Int :=
  [156384714, 156384717, 156384719, 156384720, 156384721]

set_option maxHeartbeats 1000000 in
/-- Claim C1 (amended): the error-code translation round-trips for every
accepted code except the five aliased HAUSNUMERO-band codes: whenever
from_raw accepts c and c is not one of 156384714, 156384717, 156384719,
156384720, 156384721, the resulting variant's to_raw equals c. -/
theorem c1_from_raw_roundtrip_amended (c : Int) (e : Error)
    (h : Error.from_raw c = some e) (hal : c ∉ aliasedCodes) :
    Error.to_raw e = c := by
  by_cases h1 : c = 13
  · subst h1
    rw [(by decide : Error.from_raw 13 = some Error.EACCES)] at h
    injection h with he
    subst he
    first
      | rfl
      | exact absurd (by decide) hal
  by_cases h2 : c = 98
  · subst h2
    rw [(by decide : Error.from_raw 98 = some Error.EADDRINUSE)] at h
    injection h with he
    subst he
    first
      | rfl
      | exact absurd (by decide) hal
  by_cases h3 : c = 11
  · subst h3
    rw [(by decide : Error.from_raw 11 = some Error.EAGAIN)] at h
    injection h with he
    subst he
    first
      | rfl
      | exact absurd (by decide) hal
  by_cases h4 : c = 16
  · subst h4
    rw [(by decide : Error.from_raw 16 = some Error.EBUSY)] at h
    injection h with he
    subst he
    first
      | rfl
      | exact absurd (by decide) hal
  by_cases h5 : c = 111
  · subst h5
    rw [(by decide : Error.from_raw 111 = some Error.ECONNREFUSED)] at h
    injection h with he
    subst he
    first
      | rfl
      | exact absurd (by decide) hal
  by_cases h6 : c = 14
  · subst h6
    rw [(by decide : Error.from_raw 14 = some Error.EFAULT)] at h
    injection h with he
    subst he
    first
      | rfl
      | exact absurd (by decide) hal
  by_cases h7 : c = 113
  · subst h7
    rw [(by decide : Error.from_raw 113 = some Error.EHOSTUNREACH)] at h
    injection h with he
    subst he
    first
      | rfl
      | exact absurd (by decide) hal
  by_cases h8 : c = 115
  · subst h8
    rw [(by decide : Error.from_raw 115 = some Error.EINPROGRESS)] at h
    injection h with he
    subst he
    first
      | rfl
      | exact absurd (by decide) hal
  by_cases h9 : c = 22
  · subst h9
    rw [(by decide : Error.from_raw 22 = some Error.EINVAL)] at h
    injection h with he
    subst he
    first
      | rfl
      | exact absurd (by decide) hal
  by_cases h10 : c = 24
  · subst h10
    rw [(by decide : Error.from_raw 24 = some Error.EMFILE)] at h
    injection h with he
    subst he
    first
      | rfl
      | exact absurd (by decide) hal
  by_cases h11 : c = 90
  · subst h11
    rw [(by decide : Error.from_raw 90 = some Error.EMSGSIZE)] at h
    injection h with he
    subst he
    first
      | rfl
      | exact absurd (by decide) hal
  by_cases h12 : c = 36
  · subst h12
    rw [(by decide : Error.from_raw 36 = some Error.ENAMETOOLONG)] at h
    injection h with he
    subst he
    first
      | rfl
      | exact absurd (by decide) hal
  by_cases h13 : c = 19
  · subst h13
    rw [(by decide : Error.from_raw 19 = some Error.ENODEV)] at h
    injection h with he
    subst he
    first
      | rfl
      | exact absurd (by decide) hal
  by_cases h14 : c = 2
  · subst h14
    rw [(by decide : Error.from_raw 2 = some Error.ENOENT)] at h
    injection h with he
    subst he
    first
      | rfl
      | exact absurd (by decide) hal
  by_cases h15 : c = 12
  · subst h15
    rw [(by decide : Error.from_raw 12 = some Error.ENOMEM)] at h
    injection h with he
    subst he
    first
      | rfl
      | exact absurd (by decide) hal
  by_cases h16 : c = 107
  · subst h16
    rw [(by decide : Error.from_raw 107 = some Error.ENOTCONN)] at h
    injection h with he
    subst he
    first
      | rfl
      | exact absurd (by decide) hal
  by_cases h17 : c = 88
  · subst h17
    rw [(by decide : Error.from_raw 88 = some Error.ENOTSOCK)] at h
    injection h with he
    subst he
    first
      | rfl
      | exact absurd (by decide) hal
  by_cases h18 : c = 71
  · subst h18
    rw [(by decide : Error.from_raw 71 = some Error.EPROTO)] at h
    injection h with he
    subst he
    first
      | rfl
      | exact absurd (by decide) hal
  by_cases h19 : c = 93
  · subst h19
    rw [(by decide : Error.from_raw 93 = some Error.EPROTONOSUPPORT)] at h
    injection h with he
    subst he
    first
      | rfl
      | exact absurd (by decide) hal
  by_cases h20 : c = 156384713
  · subst h20
    rw [(by decide : Error.from_raw 156384713 = some Error.ENOTSUP)] at h
    injection h with he
    subst he
    first
      | rfl
      | exact absurd (by decide) hal
  by_cases h21 : c = 156384714
  · subst h21
    rw [(by decide : Error.from_raw 156384714 = some Error.EPROTONOSUPPORT)] at h
    injection h with he
    subst he
    first
      | rfl
      | exact absurd (by decide) hal
  by_cases h22 : c = 156384715
  · subst h22
    rw [(by decide : Error.from_raw 156384715 = some Error.ENOBUFS)] at h
    injection h with he
    subst he
    first
      | rfl
      | exact absurd (by decide) hal
  by_cases h23 : c = 156384716
  · subst h23
    rw [(by decide : Error.from_raw 156384716 = some Error.ENETDOWN)] at h
    injection h with he
    subst he
    first
      | rfl
      | exact absurd (by decide) hal
  by_cases h24 : c = 156384717
  · subst h24
    rw [(by decide : Error.from_raw 156384717 = some Error.EADDRINUSE)] at h
    injection h with he
    subst he
    first
      | rfl
      | exact absurd (by decide) hal
  by_cases h25 : c = 156384718
  · subst h25
    rw [(by decide : Error.from_raw 156384718 = some Error.EADDRNOTAVAIL)] at h
    injection h with he
    subst he
    first
      | rfl
      | exact absurd (by decide) hal
  by_cases h26 : c = 156384719
  · subst h26
    rw [(by decide : Error.from_raw 156384719 = some Error.ECONNREFUSED)] at h
    injection h with he
    subst he
    first
      | rfl
      | exact absurd (by decide) hal
  by_cases h27 : c = 156384720
  · subst h27
    rw [(by decide : Error.from_raw 156384720 = some Error.EINPROGRESS)] at h
    injection h with he
    subst he
    first
      | rfl
      | exact absurd (by decide) hal
  by_cases h28 : c = 156384721
  · subst h28
    rw [(by decide : Error.from_raw 156384721 = some Error.ENOTSOCK)] at h
    injection h with he
    subst he
    first
      | rfl
      | exact absurd (by decide) hal
  by_cases h29 : c = 156384763
  · subst h29
    rw [(by decide : Error.from_raw 156384763 = some Error.EFSM)] at h
    injection h with he
    subst he
    first
      | rfl
      | exact absurd (by decide) hal
  by_cases h30 : c = 156384764
  · subst h30
    rw [(by decide : Error.from_raw 156384764 = some Error.ENOCOMPATPROTO)] at h
    injection h with he
    subst he
    first
      | rfl
      | exact absurd (by decide) hal
  by_cases h31 : c = 156384765
  · subst h31
    rw [(by decide : Error.from_raw 156384765 = some Error.ETERM)] at h
    injection h with he
    subst he
    first
      | rfl
      | exact absurd (by decide) hal
  by_cases h32 : c = 156384766
  · subst h32
    rw [(by decide : Error.from_raw 156384766 = some Error.EMTHREAD)] at h
    injection h with he
    subst he
    first
      | rfl
      | exact absurd (by decide) hal
  exfalso
  unfold Error.from_raw at h
  rw [if_neg h1, if_neg h2, if_neg h3, if_neg h4, if_neg h5, if_neg h6, if_neg h7, if_neg h8, if_neg h9, if_neg h10, if_neg h11, if_neg h12, if_neg h13, if_neg h14, if_neg h15, if_neg h16, if_neg h17, if_neg h18, if_neg h19, if_neg h20, if_neg h21, if_neg h22, if_neg h23, if_neg h24, if_neg h25, if_neg h26, if_neg h27, if_neg h28, if_neg h29, if_neg h30, if_neg h31, if_neg h32] at h
  exact Option.noConfusion h

/-- Claim C1, witness for the amended theorem: the code 156384713 (ENOTSUP)
is accepted, is not aliased, and round-trips. -/
theorem c1_from_raw_roundtrip_amended_witness :
    Error.from_raw 156384713 = some Error.ENOTSUP ∧
    (156384713 : Int) ∉ aliasedCodes ∧
    Error.to_raw Error.ENOTSUP = 156384713 :=
  ⟨by decide, by decide,
   c1_from_raw_roundtrip_amended 156384713 Error.ENOTSUP (by decide) (by decide)⟩

/-- Claim C1, counterexample: the translation is not lossless as claimed.
from_raw accepts 156384714 (the HAUSNUMERO-band remap of EPROTONOSUPPORT)
but maps it to the POSIX-discriminant variant, whose to_raw is 93, not
156384714. -/
theorem c1_from_raw_not_lossless_counterexample :
    Error.from_raw 156384714 = some Error.EPROTONOSUPPORT ∧
    Error.to_raw Error.EPROTONOSUPPORT = 93 ∧
    (93 : Int) ≠ 156384714 := by
  refine ⟨by decide, by decide, by decide⟩

/-- Claim C2: for every variant e of the Error enumeration,
Error::from_raw(e.to_raw()) accepts and returns e. -/
theorem c2_to_raw_from_raw_roundtrip (e : Error) :
    Error.from_raw (Error.to_raw e) = some e := by
  cases e <;> decide

/-- Outcome of a call into the binding: a value, an Error, or a process
abort (the fail! macro, reached on error codes the enumeration cannot
represent). -/
inductive FfiResult (α : Type) where
  | ok (a : α)
  | err (e : Error)
  | abort
deriving DecidableEq, Repr

/-- Err(errno_to_error()) as the binding computes it (line 759): translate
the sampled thread-local code; an unknown code hits the fail! arm of
from_raw, aborting the process. -/
def errnoErr {α : Type} (errno : Int) : FfiResult α :=
  match Error.from_raw errno with
  | some e => .err e
  | none => .abort

/-- Context (lines 267-269): the raw MQ-lib handle; 0 models a null
pointer. -/
structure Context where
  ctx : Nat
deriving DecidableEq, Repr

/-- Context::new (lines 272-276): stores the result of zmq_ctx_new directly.
The oracle parameter is the handle zmq_ctx_new returned; the source performs
no check on it. -/
def Context.new (zmqCtxNewRet : Nat) : Context :=
  { ctx := zmqCtxNewRet }

/-- Spec-side constructor for comparison with Context.new, following section
4.2 of the spec ("calls MQ-lib ctx-new. If MQ-lib returns null, the
implementation fails"): null yields no Context. -/
def Context.new_spec (zmqCtxNewRet : Nat) : Option Context :=
  if zmqCtxNewRet = 0 then none else some { ctx := zmqCtxNewRet }

/-- Claim C3, counterexample: when zmq_ctx_new yields null (0), Context::new
still returns normally, with the null handle stored, where the spec's
constructor fails. -/
theorem c3_new_null_counterexample :
    Context.new 0 = { ctx := 0 } ∧ Context.new_spec 0 = none :=
  ⟨rfl, rfl⟩

/-- Claim C3 (amended): Context::new performs no null check: it returns a
Context storing whatever handle zmq_ctx_new yielded.  On every non-null
handle it agrees with the spec's constructor; on null it returns normally
with the null handle stored instead of failing. -/
theorem c3_new_no_null_check_amended (r : Nat) (h : r ≠ 0) :
    Context.new_spec r = some (Context.new r) ∧ (Context.new 0).ctx = 0 := by
  refine ⟨?_, rfl⟩
  simp [Context.new_spec, Context.new, h]

/-- Claim C3, witness for the amended theorem at the non-null handle 7. -/
theorem c3_new_no_null_check_amended_witness :
    (7 : Nat) ≠ 0 ∧
    (Context.new_spec 7 = some (Context.new 7) ∧ (Context.new 0).ctx = 0) :=
  ⟨by decide, c3_new_no_null_check_amended 7 (by decide)⟩

/-- Context::destroy (lines 290-296): one zmq_ctx_destroy attempt; -1 maps
the sampled errno through the error translation (aborting on a code the
enumeration cannot represent), anything else is Ok. -/
def Context.destroy (destroyRet errno : Int) : FfiResult Unit :=
  if destroyRet = -1 then errnoErr errno else .ok ()

/-- How a run of the Context drop loop ends: the loop exits at attempt n, or
the process aborts inside attempt n. -/
inductive DropExit where
  | finished (n : Nat)
  | died (n : Nat)
deriving DecidableEq, Repr

/-- The Drop for Context loop (lines 299-307), fuel-bounded.  The oracle w
gives the (return code, errno) pair of each zmq_ctx_destroy attempt.  The
loop repeats destroy() while it returns an Err other than EFAULT; Ok or
Err EFAULT exits; an abort inside destroy kills the process. -/
def contextDropRun (w : Nat → Int × Int) : Nat → Nat → Option DropExit
  | 0, _ => none
  | fuel+1, i =>
    match Context.destroy (w i).1 (w i).2 with
    | .ok _ => some (.finished i)
    | .abort => some (.died i)
    | .err e =>
      if e = Error.EFAULT then some (.finished i)
      else contextDropRun w fuel (i+1)

lemma contextDropRun_stop (w : Nat → Int × Int) (fuel i : Nat)
    (h : Context.destroy (w i).1 (w i).2 = .ok () ∨
         Context.destroy (w i).1 (w i).2 = .err Error.EFAULT) :
    contextDropRun w (fuel + 1) i = some (.finished i) := by
  rcases h with h | h <;> simp [contextDropRun, h]

lemma contextDropRun_step (w : Nat → Int × Int) (fuel i : Nat) (e : Error)
    (h : Context.destroy (w i).1 (w i).2 = .err e) (he : e ≠ Error.EFAULT) :
    contextDropRun w (fuel + 1) i = contextDropRun w fuel (i + 1) := by
  simp [contextDropRun, h, he]

/-- If every destroy attempt returns an Err other than EFAULT, the drop loop
never terminates: every fuel bound is exhausted. -/
lemma contextDropRun_never_stops (w : Nat → Int × Int)
    (h : ∀ n, ∃ e, e ≠ Error.EFAULT ∧
         Context.destroy (w n).1 (w n).2 = .err e) :
    ∀ fuel i, contextDropRun w fuel i = none := by
  intro fuel
  induction fuel with
  | zero => intro i; rfl
  | succ fuel ih =>
    intro i
    obtain ⟨e, he, hd⟩ := h i
    rw [contextDropRun_step w fuel i e hd he]
    exact ih (i + 1)

/-- Claim C7: on the interrupted code the drop loop does not retry as
claimed.  The Error enumeration has no EINTR variant, so when a destroy
attempt fails with errno EINTR (4), Error::from_raw hits its fail! arm and
the process aborts inside destroy(); the drop loop dies at that attempt
instead of absorbing the error. -/
theorem c7_drop_eintr_aborts :
    Error.from_raw 4 = none ∧
    Context.destroy (-1) 4 = .abort ∧
    contextDropRun (fun _ => (-1, 4)) 1 0 = some (.died 0) := by
  refine ⟨by decide, by decide, by decide⟩

/-- Socket state (lines 309-312): the raw handle and the closed flag. -/
structure SocketSt where
  sock : Nat
  closed : Bool
deriving DecidableEq, Repr

/-- Oracle for one zmq_close call: its return code and the errno sampled
after a failure. -/
structure CloseWorld where
  closeRet : Int
  errno : Int
deriving DecidableEq, Repr

/-- What a close path produces: the Rust return value, the socket state
after the call, and how many times zmq_close was invoked. -/
structure CloseOutcome where
  result : FfiResult Unit
  st : SocketSt
  zmqCloseCalls : Nat
deriving DecidableEq, Repr

/-- Socket::close (lines 403-413): if not closed, set the flag first, then
invoke zmq_close once; -1 maps the errno through the translation.  On an
already-closed socket nothing is invoked and Ok is returned. -/
def Socket.close (w : CloseWorld) (s : SocketSt) : CloseOutcome :=
  if !s.closed then
    let s2 : SocketSt := { s with closed := true }
    if w.closeRet = -1 then
      { result := errnoErr w.errno, st := s2, zmqCloseCalls := 1 }
    else
      { result := .ok (), st := s2, zmqCloseCalls := 1 }
  else
    { result := .ok (), st := s, zmqCloseCalls := 0 }

/-- Socket::close_final (lines 415-423): like close but never sets the
flag; skips the zmq_close call when the socket is already closed. -/
def Socket.close_final (w : CloseWorld) (s : SocketSt) : CloseOutcome :=
  if !s.closed then
    if w.closeRet = -1 then
      { result := errnoErr w.errno, st := s, zmqCloseCalls := 1 }
    else
      { result := .ok (), st := s, zmqCloseCalls := 1 }
  else
    { result := .ok (), st := s, zmqCloseCalls := 0 }

/-- Drop for Socket (lines 314-321): run close_final; an Err from it is
fatal (fail!), modelled as abort.  Returns the drop outcome and the number
of zmq_close calls performed. -/
def Socket.dropRun (w : CloseWorld) (s : SocketSt) : FfiResult Unit × Nat :=
  let o := Socket.close_final w s
  match o.result with
  | .ok _ => (.ok (), o.zmqCloseCalls)
  | .err _ => (.abort, o.zmqCloseCalls)
  | .abort => (.abort, o.zmqCloseCalls)

/-- Claim C8: close is idempotent on the already-closed state: on a Socket
whose closed flag is true, close() returns Ok, leaves the state unchanged
and performs no zmq_close call; the first close() on an open Socket sets
the flag and invokes zmq_close exactly once. -/
theorem c8_close_idempotent (w : CloseWorld) (n : Nat) :
    Socket.close w { sock := n, closed := true } =
      { result := .ok (), st := { sock := n, closed := true },
        zmqCloseCalls := 0 }
    ∧ (Socket.close w { sock := n, closed := false }).st.closed = true
    ∧ (Socket.close w { sock := n, closed := false }).zmqCloseCalls = 1 := by
  refine ⟨rfl, ?_, ?_⟩ <;>
    · simp only [Socket.close]
      split
      · split <;> rfl
      · simp_all

/-- Claim C10: close sets the flag before invoking zmq_close, so even when
zmq_close returns -1 the Socket stays marked closed and close() returns the
translated error; a subsequent close() returns Ok without another zmq_close
call, close_final skips the closed socket, and the eventual drop performs
no further zmq_close call. -/
theorem c10_close_error_still_marks_closed (errno : Int) (n : Nat)
    (w2 : CloseWorld) :
    (Socket.close ⟨-1, errno⟩ ⟨n, false⟩).st.closed = true
    ∧ (Socket.close ⟨-1, errno⟩ ⟨n, false⟩).result = errnoErr errno
    ∧ (Socket.close ⟨-1, errno⟩ ⟨n, false⟩).zmqCloseCalls = 1
    ∧ Socket.close w2 (Socket.close ⟨-1, errno⟩ ⟨n, false⟩).st =
        { result := .ok (),
          st := (Socket.close ⟨-1, errno⟩ ⟨n, false⟩).st,
          zmqCloseCalls := 0 }
    ∧ (Socket.close_final w2 (Socket.close ⟨-1, errno⟩ ⟨n, false⟩).st).zmqCloseCalls = 0
    ∧ (Socket.dropRun w2 (Socket.close ⟨-1, errno⟩ ⟨n, false⟩).st).2 = 0 := by
  refine ⟨rfl, rfl, rfl, rfl, rfl, rfl⟩

/-- Oracle for one Socket::send run: the zmq_msg_init_size return code, the
zmq_msg_send return code, the (discarded) zmq_msg_close return code, and
the errno sampled on a failure. -/
structure SendWorld where
  initRet : Int
  sendRet : Int
  closeRet : Int
  errno : Int
deriving DecidableEq, Repr

/-- What Socket::send produces: the Rust return value, the payload and
flags handed to zmq_msg_send (none when init failed before the send), and
how many times zmq_msg_close was invoked. -/
structure SendOutcome where
  result : FfiResult Unit
  sendInvoked : Option (List Nat × Int)
  closeCalls : Nat
deriving DecidableEq, Repr

/-- Socket::send (lines 343-361): init a message of the data's length (-1
returns the translated errno with no close), copy the bytes in, call
zmq_msg_send, close the message unconditionally discarding the close
result, and map the send return code (-1 to the translated errno,
otherwise Ok). -/
def Socket.send (data : List Nat) (flags : Int) (w : SendWorld) :
    SendOutcome :=
  if w.initRet = -1 then
    { result := errnoErr w.errno, sendInvoked := none, closeCalls := 0 }
  else
    let rc := w.sendRet
    let _ := w.closeRet
    if rc = -1 then
      { result := errnoErr w.errno, sendInvoked := some (data, flags),
        closeCalls := 1 }
    else
      { result := .ok (), sendInvoked := some (data, flags),
        closeCalls := 1 }

/-- Claim C6: once the message is successfully initialized, send invokes
zmq_msg_close exactly once on both outcomes of zmq_msg_send, the close
result never influences the outcome, and the returned Result is determined
solely by the zmq_msg_send return code: -1 maps to the current error,
anything else to Ok. -/
theorem c6_send_closes_once (data : List Nat) (flags : Int) (w : SendWorld)
    (hinit : w.initRet ≠ -1) :
    (Socket.send data flags w).closeCalls = 1
    ∧ (Socket.send data flags w).result =
        (if w.sendRet = -1 then errnoErr w.errno else .ok ())
    ∧ ∀ c, Socket.send data flags { w with closeRet := c } =
        Socket.send data flags w := by
  refine ⟨?_, ?_, ?_⟩
  · simp only [Socket.send, hinit, if_false]
    split <;> rfl
  · simp only [Socket.send, hinit, if_false]
    split <;> simp_all
  · intro c
    simp [Socket.send, hinit]

/-- Claim C6, witness: a concrete run with successful init (return 0) and a
failing send (return -1, errno EAGAIN = 11). -/
theorem c6_send_closes_once_witness :
    ((0 : Int) ≠ -1)
    ∧ ((Socket.send [1, 2, 3] 0 ⟨0, -1, 7, 11⟩).closeCalls = 1
       ∧ (Socket.send [1, 2, 3] 0 ⟨0, -1, 7, 11⟩).result =
           (if (-1 : Int) = -1 then errnoErr 11 else .ok ())
       ∧ ∀ c, Socket.send [1, 2, 3] 0 { (⟨0, -1, 7, 11⟩ : SendWorld) with closeRet := c } =
           Socket.send [1, 2, 3] 0 ⟨0, -1, 7, 11⟩) :=
  ⟨by decide, c6_send_closes_once [1, 2, 3] 0 ⟨0, -1, 7, 11⟩ (by decide)⟩

/-- The message value (lines 600-602): a 32-byte inline array (Msg_). -/
structure Message where
  msg : List Int
deriving DecidableEq, Repr

/-- What Message::new produces: the constructed Message and how many times
zmq_msg_init was invoked. -/
structure MsgNewOutcome where
  message : Message
  msgInitCalls : Nat
deriving DecidableEq, Repr

/-- Message::new (lines 613-619): build the zeroed 32-byte value, invoke
zmq_msg_init once and discard its return code (the source binds it to the
underscore pattern), then return the message.  The oracle parameter is the
zmq_msg_init return code. -/
def Message.new (initRet : Int) : MsgNewOutcome :=
  let message : Message := { msg := List.replicate 32 0 }
  let _ := initRet
  { message := message, msgInitCalls := 1 }

/-- Claim C9, counterexample: with zmq_msg_init reporting failure (-1),
Message::new still returns the message normally, exactly as on success —
nothing observes the init return code. -/
theorem c9_new_ignores_init_failure_counterexample :
    Message.new (-1) =
      { message := { msg := List.replicate 32 0 }, msgInitCalls := 1 }
    ∧ Message.new (-1) = Message.new 0 :=
  ⟨rfl, rfl⟩

/-- Claim C9 (amended): Message::new zero-initializes the 32-byte value and
invokes zmq_msg_init exactly once, but discards the init result rather than
treating failure as fatal: for every return code, including failure, new()
returns the zero-initialized Message as if construction had succeeded. -/
theorem c9_new_zero_init_amended (r : Int) :
    (Message.new r).message.msg = List.replicate 32 0
    ∧ (Message.new r).message.msg.length = 32
    ∧ (Message.new r).msgInitCalls = 1
    ∧ Message.new r = Message.new 0 := by
  refine ⟨rfl, by simp [Message.new], rfl, rfl⟩

/-- The scalar types the option plumbing instantiates, and their widths in
bytes.  rust_int is the pre-1.0 Rust `int`, which is pointer-sized: its
width is the host pointer width, passed explicitly. -/
inductive CTy where
  | c_int
  | rust_int
  | i64_t
  | u64_t
deriving DecidableEq, Repr

/-- size_of of each scalar type, given the host pointer width in bytes. -/
def CTy.byteSize (ty : CTy) (ptrBytes : Nat) : Nat :=
  match ty with
  | .c_int => 4
  | .rust_int => ptrBytes
  | .i64_t => 8
  | .u64_t => 8

/-- The arguments a setsockopt_num instantiation hands to zmq_setsockopt
(lines 722-740): option code, value, and optvallen = size_of of the
instantiating type. -/
structure SetsockoptCall where
  opt : Int
  value : Int
  size : Nat
deriving DecidableEq, Repr

/-- The setsockopt_num macro body (lines 722-736) for an instantiating type
ty on a host with the given pointer width. -/
def setsockopt_num (ty : CTy) (ptrBytes : Nat) (opt : Int) (value : Int) :
    SetsockoptCall :=
  { opt := opt, value := value, size := ty.byteSize ptrBytes }

/-- setsockopt_int (line 738): the macro instantiated at the pointer-sized
Rust `int`, not at c_int. -/
def setsockopt_int (ptrBytes : Nat) (opt : Int) (value : Int) :
    SetsockoptCall :=
  setsockopt_num .rust_int ptrBytes opt value

/-- Option codes used by the 32-bit setters (lines 97-104 of the source). -/
def ZMQ_LINGER : Int := 17

def ZMQ_RECONNECT_IVL : Int := 18

def ZMQ_BACKLOG : Int := 19

def ZMQ_RECONNECT_IVL_MAX : Int := 21

def ZMQ_SNDHWM : Int := 23

def ZMQ_RCVHWM : Int := 24

/-- Socket::set_sndhwm (lines 525-527): what it passes to zmq_setsockopt. -/
def Socket.set_sndhwm (ptrBytes : Nat) (value : Int) : SetsockoptCall :=
  setsockopt_int ptrBytes ZMQ_SNDHWM value

/-- Socket::set_rcvhwm (lines 529-531). -/
def Socket.set_rcvhwm (ptrBytes : Nat) (value : Int) : SetsockoptCall :=
  setsockopt_int ptrBytes ZMQ_RCVHWM value

/-- Socket::set_reconnect_ivl (lines 578-580). -/
def Socket.set_reconnect_ivl (ptrBytes : Nat) (value : Int) : SetsockoptCall :=
  setsockopt_int ptrBytes ZMQ_RECONNECT_IVL value

/-- Socket::set_reconnect_ivl_max (lines 582-584). -/
def Socket.set_reconnect_ivl_max (ptrBytes : Nat) (value : Int) :
    SetsockoptCall :=
  setsockopt_int ptrBytes ZMQ_RECONNECT_IVL_MAX value

/-- Socket::set_backlog (lines 586-588). -/
def Socket.set_backlog (ptrBytes : Nat) (value : Int) : SetsockoptCall :=
  setsockopt_int ptrBytes ZMQ_BACKLOG value

/-- Socket::set_linger (lines 574-576). -/
def Socket.set_linger (ptrBytes : Nat) (value : Int) : SetsockoptCall :=
  setsockopt_int ptrBytes ZMQ_LINGER value

/-- Claim C5: on a 64-bit host every one of the six 32-bit-option setters
passes optvallen = 8 (size_of of the pointer-sized Rust int the
setsockopt_num macro is instantiated at), not the 4 bytes the MQ-lib
per-option contract requires. -/
theorem c5_setters_pass_8_bytes (v : Int) :
    (Socket.set_sndhwm 8 v).size = 8
    ∧ (Socket.set_rcvhwm 8 v).size = 8
    ∧ (Socket.set_reconnect_ivl 8 v).size = 8
    ∧ (Socket.set_reconnect_ivl_max 8 v).size = 8
    ∧ (Socket.set_backlog 8 v).size = 8
    ∧ (Socket.set_linger 8 v).size = 8
    ∧ (8 : Nat) ≠ 4
    ∧ CTy.byteSize .c_int 8 = 4 :=
  ⟨rfl, rfl, rfl, rfl, rfl, rfl, by decide, rfl⟩

/-- Minimal model of the 2014 Vec operations the source uses: a backing
buffer of cap bytes plus the logical length.  with_capacity allocates the
buffer but leaves the length 0, and truncate only ever shortens — the 2014
Vec::truncate drops excess elements and cannot grow the vector. -/
structure RVec where
  buf : List Nat
  len : Nat
deriving DecidableEq, Repr

/-- Vec::with_capacity: an uninitialized buffer of c bytes, length 0. -/
def RVec.with_capacity (c : Nat) : RVec :=
  { buf := List.replicate c 0, len := 0 }

/-- Vec::truncate: shorten to n when n is below the length, else no-op. -/
def RVec.truncate (v : RVec) (n : Nat) : RVec :=
  if n < v.len then { v with len := n } else v

/-- The byte sequence the Vec holds: the first len bytes of the buffer. -/
def RVec.toList (v : RVec) : List Nat :=
  v.buf.take v.len

/-- getsockopt_bytes (lines 700-720): allocate a Vec of capacity 255, let
zmq_getsockopt write through the data pointer and the out-size, then
truncate to the written size and return.  The oracle is none on failure
(-1, with the given errno) or the bytes MQ-lib wrote (their length is what
it stores in the out-size; the MQ-lib identity contract keeps it at most
255). -/
def getsockopt_bytes (opt : Int) (errno : Int) (ffi : Option (List Nat)) :
    FfiResult (List Nat) :=
  let value := RVec.with_capacity 255
  match ffi with
  | none => errnoErr errno
  | some written =>
    let value2 : RVec := { value with
      buf := written ++ value.buf.drop written.length }
    let size := written.length
    .ok ((value2.truncate size).toList)

/-- ZMQ_IDENTITY option code (line 85). -/
def ZMQ_IDENTITY : Int := 5

/-- Socket::get_identity (lines 467-469). -/
def Socket.get_identity (errno : Int) (ffi : Option (List Nat)) :
    FfiResult (List Nat) :=
  getsockopt_bytes ZMQ_IDENTITY errno ffi

/-- Claim C4: the identity readback loses the payload.  When zmq_getsockopt
writes the three bytes 0x41 0x42 0x43 and stores 3 in the out-size,
get_identity returns the empty sequence: Vec::truncate cannot grow the
zero-length Vec that with_capacity produced, so the returned length is 0,
not the 3 the claim requires. -/
theorem c4_get_identity_returns_empty :
    Socket.get_identity 0 (some [0x41, 0x42, 0x43]) = .ok ([] : List Nat)
    ∧ ([0x41, 0x42, 0x43] : List Nat).length = 3
    ∧ (0 : Nat) ≠ 3 :=
  ⟨rfl, rfl, by decide⟩

end Zmq
